import Mathlib

set_option maxHeartbeats 1000000

/-!
Shallow embedding of the `talk_async_sqlalchemy` demo package.

The embedding translates the three source modules:

* `helpers.py`: `format_divider`, `execute_verbosely_async`,
  `flush_database_async`, `create_orm_instance_async`,
  `access_attribute_with_server_default`;
* `models.py`: the four declarative models (`LazyTraveler`, `EagerTraveler`,
  `TravelerWithDestination`, `Country`) together with the loaded/unloaded
  attribute state of in-memory ORM instances and the `RepresentableMixin`
  textual representation;
* `async.py`: the six scenario coroutines and `main`.

The database is modelled as per-table lists of rows with per-table
auto-increment counters; the server clock (the value `func.now()` assigns to
`created_at`) is an opaque string stored in the database state.  The async
SQLAlchemy runtime behaviour the demo exercises is modelled explicitly:
attribute access on an ORM instance succeeds when the attribute is loaded and
raises `MissingGreenlet` when it is unloaded (the lazy load would need a
greenlet execution context that plain `async` code does not provide); a flush
with `eager_defaults` enabled fetches server-generated defaults, while a flush
without it leaves them unloaded; executing a selector in a new session builds
a fresh instance whose column attributes are loaded and whose relationship
attribute is loaded only when a `joinedload` option was attached.

Each scenario additionally records a trace of phases so that the spec's
per-scenario state-machine shape can be compared with what the code does.
-/

namespace TalkAsyncSqlalchemy

/-- The Python exception kinds the demo can encounter: `MissingGreenlet`
(the designated missing-async-execution-context error of the spec) and
`AttributeError` (attribute access on `None`, which nothing catches). -/
inductive PyExc where
  | missingGreenlet
  | attributeError
deriving DecidableEq

/-- Load state of one attribute of an in-memory ORM instance. -/
inductive Loaded (α : Type) where
  | loaded (v : α)
  | unloaded
deriving DecidableEq

/-- Map a function over the value of a loaded attribute. -/
def Loaded.map {α β : Type} (f : α → β) : Loaded α → Loaded β
  | .loaded v => .loaded (f v)
  | .unloaded => .unloaded

/-- Models async SQLAlchemy attribute access: a loaded attribute yields its
value; an unloaded attribute triggers an implicit lazy load, which in plain
`async` code (no greenlet context) raises `MissingGreenlet`. -/
def accessAttr {α : Type} : Loaded α → Except PyExc α
  | .loaded v => .ok v
  | .unloaded => .error .missingGreenlet

/-- `helpers.DIVIDER_WIDTH`. -/
def DIVIDER_WIDTH : Nat := 80

/-- The reassignment at the top of `format_divider`: a non-empty label is
rendered as a bracketed label, an empty label stays empty. -/
def renderedLabel (label : String) : String :=
  if label = "" then "" else "| " ++ label ++ " |"

/-- Python `format(s, fill ^ width)`: center `s` in `width` columns, padding
with `fill`; the extra padding character (odd padding) goes to the right, and
a string at least `width` long is returned unchanged. -/
def centerPad (s : String) (width : Nat) (fill : Char) : String :=
  let pad := width - s.length
  let lpad := pad / 2
  String.mk (List.replicate lpad fill) ++ s ++ String.mk (List.replicate (pad - lpad) fill)

/-- `helpers.format_divider`. -/
def format_divider (label : String) (width : Nat) : String :=
  centerPad (renderedLabel label) width '='

/-- The single-quote character, used by Python `repr` of strings. -/
def sq : String := String.mk [Char.ofNat 39]

/-- Python `repr` of the plain strings the demo uses (no escaping needed). -/
def pyReprStr (s : String) : String := sq ++ s ++ sq

/-- Python `repr` of an optional string column value (`None` or a string). -/
def pyReprOptStr : Option String → String
  | none => "None"
  | some s => pyReprStr s

/-- Python `repr` of an optional integer column value. -/
def pyReprOptNat : Option Nat → String
  | none => "None"
  | some n => toString n

/-- `helpers.execute_verbosely_async`, modelled on the already-awaited result
of the wrapped coroutine: returns the pass-through value together with the
four lines printed (start marker, result marker, result or placeholder, end
marker). -/
def execute_verbosely_async (result : Option String) (label : String) :
    Option String × List String :=
  (result,
    [format_divider ("Start Execution of " ++ pyReprStr label) DIVIDER_WIDTH,
     format_divider "Result" DIVIDER_WIDTH,
     (match result with
      | some s => s
      | none => "(no result)"),
     format_divider "End" DIVIDER_WIDTH])

/-- Models the engine executing the text statement `SELECT :message` with a
bound `message` parameter: the database echoes the bound value back as the
single scalar of the result. -/
def executeTextSelectMessage (message : String) : String := message

/-- `async.simple_statement`: executes `SELECT :message` and returns the
scalar. -/
def simple_statement (message : String) : String :=
  executeTextSelectMessage message

/-- A row of the `country` table. -/
structure CountryRow where
  id : Nat
  name : Option String
deriving DecidableEq

/-- A row of the `lazy_traveler` or `eager_traveler` table. -/
structure TravelerRow where
  id : Nat
  created_at : String
  name : Option String
  age : Option Nat
deriving DecidableEq

/-- A row of the `traveler_with_destination` table. -/
structure TravelerWithDestinationRow where
  id : Nat
  created_at : String
  name : Option String
  age : Option Nat
  destination_id : Option Nat
deriving DecidableEq

/-- The database: the four tables declared in `models.py`, each with its
auto-increment counter, plus the opaque server clock used for the
`server_default=func.now()` column. -/
structure DB where
  now : String
  lazy_traveler : List TravelerRow
  lazyNextId : Nat
  eager_traveler : List TravelerRow
  eagerNextId : Nat
  traveler_with_destination : List TravelerWithDestinationRow
  twdNextId : Nat
  country : List CountryRow
  countryNextId : Nat
deriving DecidableEq

/-- Database invariant: every stored row's identity key is below the table's
auto-increment counter (what a real autoincrement primary key guarantees). -/
def DB.wellFormed (db : DB) : Bool :=
  db.lazy_traveler.all (fun r => decide (r.id < db.lazyNextId)) &&
  db.eager_traveler.all (fun r => decide (r.id < db.eagerNextId)) &&
  db.traveler_with_destination.all (fun r => decide (r.id < db.twdNextId)) &&
  db.country.all (fun r => decide (r.id < db.countryNextId))

/-- `helpers.flush_database_async`: drop and recreate the schema, emptying
every table and restarting the identity counters. -/
def flush_database_async (db : DB) : DB :=
  { now := db.now
    lazy_traveler := [], lazyNextId := 1
    eager_traveler := [], eagerNextId := 1
    traveler_with_destination := [], twdNextId := 1
    country := [], countryNextId := 1 }

/-- A database holding a freshly created empty schema. -/
def initDB (now : String) : DB :=
  { now := now
    lazy_traveler := [], lazyNextId := 1
    eager_traveler := [], eagerNextId := 1
    traveler_with_destination := [], twdNextId := 1
    country := [], countryNextId := 1 }

/-- In-memory ORM instance of `Country`. -/
structure CountryInst where
  id : Loaded Nat
  name : Loaded (Option String)
deriving DecidableEq

/-- In-memory ORM instance of `LazyTraveler` or `EagerTraveler`. -/
structure TravelerInst where
  id : Loaded Nat
  created_at : Loaded String
  name : Loaded (Option String)
  age : Loaded (Option Nat)
deriving DecidableEq

/-- In-memory ORM instance of `TravelerWithDestination`; the relationship
attribute holds an optional `Country` instance when loaded. -/
structure TravelerWithDestinationInst where
  id : Loaded Nat
  created_at : Loaded String
  name : Loaded (Option String)
  age : Loaded (Option Nat)
  destination_id : Loaded (Option Nat)
  destination : Loaded (Option CountryInst)
deriving DecidableEq

/-- Constructor keyword arguments for `Country`. -/
structure CountryKwargs where
  name : Option String
deriving DecidableEq

/-- Constructor keyword arguments for `LazyTraveler` / `EagerTraveler`. -/
structure TravelerKwargs where
  name : Option String
  age : Option Nat
deriving DecidableEq

/-- Constructor keyword arguments for `TravelerWithDestination`; the
`destination` kwarg is a nested in-memory `Country` instance. -/
structure TravelerWithDestinationKwargs where
  name : Option String
  age : Option Nat
  destination : Option CountryKwargs
deriving DecidableEq

/-- The four declarative models of `models.py`. -/
inductive OrmModel where
  | LazyTraveler
  | EagerTraveler
  | TravelerWithDestination
  | Country
deriving DecidableEq

/-- A model together with constructor arguments for it: the
`(orm_model, creation_kwargs)` argument pair of
`helpers.create_orm_instance_async`. -/
inductive CreationKwargs where
  | forLazyTraveler (kw : TravelerKwargs)
  | forEagerTraveler (kw : TravelerKwargs)
  | forTravelerWithDestination (kw : TravelerWithDestinationKwargs)
  | forCountry (kw : CountryKwargs)
deriving DecidableEq

/-- The model a `CreationKwargs` value instantiates. -/
def CreationKwargs.model : CreationKwargs → OrmModel
  | .forLazyTraveler _ => .LazyTraveler
  | .forEagerTraveler _ => .EagerTraveler
  | .forTravelerWithDestination _ => .TravelerWithDestination
  | .forCountry _ => .Country

/-- Insert a new `Country` row: the database assigns the next identity key
and the row is appended to the table. -/
def insertCountry (kw : CountryKwargs) (db : DB) : CountryRow × DB :=
  let row : CountryRow := { id := db.countryNextId, name := kw.name }
  (row,
    { db with
      country := db.country ++ [row]
      countryNextId := db.countryNextId + 1 })

/-- Insert a new `lazy_traveler` row; `created_at` is assigned by the
server default `func.now()`. -/
def insertLazyTraveler (kw : TravelerKwargs) (db : DB) : TravelerRow × DB :=
  let row : TravelerRow :=
    { id := db.lazyNextId, created_at := db.now, name := kw.name, age := kw.age }
  (row,
    { db with
      lazy_traveler := db.lazy_traveler ++ [row]
      lazyNextId := db.lazyNextId + 1 })

/-- Insert a new `eager_traveler` row; `created_at` is assigned by the
server default `func.now()`. -/
def insertEagerTraveler (kw : TravelerKwargs) (db : DB) : TravelerRow × DB :=
  let row : TravelerRow :=
    { id := db.eagerNextId, created_at := db.now, name := kw.name, age := kw.age }
  (row,
    { db with
      eager_traveler := db.eager_traveler ++ [row]
      eagerNextId := db.eagerNextId + 1 })

/-- Insert a new `traveler_with_destination` row.  When the constructor was
given a nested `Country`, the save-update cascade inserts the country first
and the traveler's foreign key takes the country's assigned identity key. -/
def insertTravelerWithDestination (kw : TravelerWithDestinationKwargs) (db : DB) :
    TravelerWithDestinationRow × DB :=
  match kw.destination with
  | some ckw =>
      let crowdb := insertCountry ckw db
      let db1 := crowdb.2
      let row : TravelerWithDestinationRow :=
        { id := db1.twdNextId, created_at := db1.now, name := kw.name, age := kw.age
          destination_id := some crowdb.1.id }
      (row,
        { db1 with
          traveler_with_destination := db1.traveler_with_destination ++ [row]
          twdNextId := db1.twdNextId + 1 })
  | none =>
      let row : TravelerWithDestinationRow :=
        { id := db.twdNextId, created_at := db.now, name := kw.name, age := kw.age
          destination_id := none }
      (row,
        { db with
          traveler_with_destination := db.traveler_with_destination ++ [row]
          twdNextId := db.twdNextId + 1 })

/-- The two plain traveler models, distinguished by their
`eager_defaults` mapper argument. -/
inductive TravelerKind where
  | lazyKind
  | eagerKind
deriving DecidableEq

/-- The `eager_defaults` mapper argument of each plain traveler model. -/
def eagerDefaults : TravelerKind → Bool
  | .lazyKind => false
  | .eagerKind => true

/-- Insert a plain traveler into the table of its model. -/
def insertTraveler (k : TravelerKind) (kw : TravelerKwargs) (db : DB) :
    TravelerRow × DB :=
  match k with
  | .lazyKind => insertLazyTraveler kw db
  | .eagerKind => insertEagerTraveler kw db

/-- The in-memory instance right after its insert transaction commits
(`expire_on_commit=False`, so client-set attributes stay loaded): the
flush populates the identity key; the server-generated `created_at` is
fetched during the flush only when `eager_defaults` is enabled, and is
otherwise left unloaded. -/
def travelerInstAfterCommit (k : TravelerKind) (kw : TravelerKwargs)
    (row : TravelerRow) : TravelerInst :=
  { id := .loaded row.id
    created_at := if eagerDefaults k then .loaded row.created_at else .unloaded
    name := .loaded kw.name
    age := .loaded kw.age }

/-- One phase of a scenario run, used to compare the code against the
spec's per-scenario state machine. -/
inductive Phase where
  | create
  | insertCommittedClosed
  | insertCommittedSessionOpen
  | selectNewSession
  | readAttempt
  | success
  | caughtFailure (e : PyExc)
deriving DecidableEq

/-- The terminal phase of a scenario: success, or a caught failure. -/
def terminalPhase : Option PyExc → Phase
  | none => .success
  | some e => .caughtFailure e

/-- The state-machine shape the spec ascribes to every scenario:
CREATE, INSERT (committed, session closed), SELECT in a new session,
READ-ATTEMPT, then the terminal phase. -/
def claimedScenarioShape (o : Option PyExc) : List Phase :=
  [.create, .insertCommittedClosed, .selectNewSession, .readAttempt, terminalPhase o]

/-- The shape `access_attribute_with_server_default` actually has: the read
happens inside the still-open insert session, right after the insert
transaction committed, with no refetch. -/
def sameSessionReadShape (o : Option PyExc) : List Phase :=
  [.create, .insertCommittedSessionOpen, .readAttempt, terminalPhase o]

/-- `helpers.access_attribute_with_server_default`: construct a traveler,
insert it in a transaction inside a session, and — still inside that
session, after the transaction has committed — try to read the
server-generated `created_at`, catching `MissingGreenlet` and turning it
into an absent result. -/
def access_attribute_with_server_default (k : TravelerKind) (db : DB) :
    Except PyExc (Option String) × DB × List Phase :=
  let kw : TravelerKwargs := { name := some "Sebastiaan", age := some 35 }
  let rowdb := insertTraveler k kw db
  let traveler := travelerInstAfterCommit k kw rowdb.1
  match accessAttr traveler.created_at with
  | .ok v =>
      (.ok (some ("Traveler Sebastiaan created at: " ++ v)), rowdb.2,
        sameSessionReadShape none)
  | .error .missingGreenlet =>
      (.ok none, rowdb.2, sameSessionReadShape (some .missingGreenlet))
  | .error e =>
      (.error e, rowdb.2, [.create, .insertCommittedSessionOpen, .readAttempt])

/-- `async.lazy_loading`. -/
def lazy_loading (db : DB) : Except PyExc (Option String) × DB × List Phase :=
  access_attribute_with_server_default .lazyKind db

/-- `async.eager_loading`. -/
def eager_loading (db : DB) : Except PyExc (Option String) × DB × List Phase :=
  access_attribute_with_server_default .eagerKind db

/-- A `sqlalchemy.select(orm_model).where(orm_model.id == i)` statement,
optionally carrying a `joinedload` option for the `destination`
relationship. -/
structure SelectStmt where
  model : OrmModel
  whereId : Nat
  joinedloadDestination : Bool
deriving DecidableEq

/-- `select.options(joinedload(TravelerWithDestination.destination))`. -/
def SelectStmt.optionsJoinedloadDestination (s : SelectStmt) : SelectStmt :=
  { s with joinedloadDestination := true }

/-- `helpers.create_orm_instance_async`: construct the instance, insert it
inside a transaction in a session, close the session, and return a selector
filtering on the identity key the database assigned at insert. -/
def create_orm_instance_async (creation_kwargs : CreationKwargs) (db : DB) :
    SelectStmt × DB × List Phase :=
  match creation_kwargs with
  | .forLazyTraveler kw =>
      let rowdb := insertLazyTraveler kw db
      ({ model := .LazyTraveler, whereId := rowdb.1.id, joinedloadDestination := false },
        rowdb.2, [.create, .insertCommittedClosed])
  | .forEagerTraveler kw =>
      let rowdb := insertEagerTraveler kw db
      ({ model := .EagerTraveler, whereId := rowdb.1.id, joinedloadDestination := false },
        rowdb.2, [.create, .insertCommittedClosed])
  | .forTravelerWithDestination kw =>
      let rowdb := insertTravelerWithDestination kw db
      ({ model := .TravelerWithDestination, whereId := rowdb.1.id,
         joinedloadDestination := false },
        rowdb.2, [.create, .insertCommittedClosed])
  | .forCountry kw =>
      let rowdb := insertCountry kw db
      ({ model := .Country, whereId := rowdb.1.id, joinedloadDestination := false },
        rowdb.2, [.create, .insertCommittedClosed])

/-- The identity key the database assigns to the record
`create_orm_instance_async` inserts. -/
def assignedId (creation_kwargs : CreationKwargs) (db : DB) : Nat :=
  match creation_kwargs with
  | .forLazyTraveler _ => db.lazyNextId
  | .forEagerTraveler _ => db.eagerNextId
  | .forTravelerWithDestination _ => db.twdNextId
  | .forCountry _ => db.countryNextId

/-- A fetched row, tagged with the table it came from. -/
inductive FetchedRow where
  | lazyRow (r : TravelerRow)
  | eagerRow (r : TravelerRow)
  | twdRow (r : TravelerWithDestinationRow)
  | countryRow (r : CountryRow)
deriving DecidableEq

/-- Executing `select(model).where(model.id == i)` and taking the first
scalar: the first row of the model's table whose identity key is `i`. -/
def fetchRow (m : OrmModel) (i : Nat) (db : DB) : Option FetchedRow :=
  match m with
  | .LazyTraveler => (db.lazy_traveler.find? (fun r => r.id == i)).map .lazyRow
  | .EagerTraveler => (db.eager_traveler.find? (fun r => r.id == i)).map .eagerRow
  | .TravelerWithDestination =>
      (db.traveler_with_destination.find? (fun r => r.id == i)).map .twdRow
  | .Country => (db.country.find? (fun r => r.id == i)).map .countryRow

/-- All rows `select(model).where(model.id == i)` matches. -/
def matchingRows (m : OrmModel) (i : Nat) (db : DB) : List FetchedRow :=
  match m with
  | .LazyTraveler => (db.lazy_traveler.filter (fun r => r.id == i)).map .lazyRow
  | .EagerTraveler => (db.eager_traveler.filter (fun r => r.id == i)).map .eagerRow
  | .TravelerWithDestination =>
      (db.traveler_with_destination.filter (fun r => r.id == i)).map .twdRow
  | .Country => (db.country.filter (fun r => r.id == i)).map .countryRow

/-- The row the database stores for `create_orm_instance_async`'s insert of
the given model and constructor arguments. -/
def insertedRow (creation_kwargs : CreationKwargs) (db : DB) : FetchedRow :=
  match creation_kwargs with
  | .forLazyTraveler kw =>
      .lazyRow { id := db.lazyNextId, created_at := db.now, name := kw.name, age := kw.age }
  | .forEagerTraveler kw =>
      .eagerRow { id := db.eagerNextId, created_at := db.now, name := kw.name, age := kw.age }
  | .forTravelerWithDestination kw =>
      .twdRow { id := db.twdNextId, created_at := db.now, name := kw.name, age := kw.age
                destination_id := kw.destination.map (fun _ => db.countryNextId) }
  | .forCountry kw =>
      .countryRow { id := db.countryNextId, name := kw.name }

/-- The in-memory `Country` instance built from a fetched row (all column
attributes loaded). -/
def countryInstOfRow (c : CountryRow) : CountryInst :=
  { id := .loaded c.id, name := .loaded c.name }

/-- Executing a `TravelerWithDestination` selector in a new session and
taking `result.scalar()`: a fresh instance is built from the matching row
with every column attribute loaded; the `destination` relationship is loaded
(by a LEFT OUTER JOIN against `country`) only when the selector carries the
`joinedload` option, and is otherwise unloaded. -/
def scalarTravelerWithDestination (sel : SelectStmt) (db : DB) :
    Option TravelerWithDestinationInst :=
  (db.traveler_with_destination.find? (fun r => r.id == sel.whereId)).map (fun row =>
    { id := .loaded row.id
      created_at := .loaded row.created_at
      name := .loaded row.name
      age := .loaded row.age
      destination_id := .loaded row.destination_id
      destination :=
        if sel.joinedloadDestination then
          .loaded ((row.destination_id.bind
            (fun did => db.country.find? (fun c => c.id == did))).map countryInstOfRow)
        else
          .unloaded })

/-- One field of the `RepresentableMixin` representation: the rendered value
for a loaded attribute, the not-loaded marker otherwise. -/
def fieldRepr (key : String) : Loaded String → String
  | .loaded v => key ++ "=" ++ v
  | .unloaded => key ++ "=<NOT_LOADED>"

/-- `RepresentableMixin.__repr__` for a `Country` instance. -/
def reprCountryInst (c : CountryInst) : String :=
  "Country(" ++ fieldRepr "id" (c.id.map toString) ++ ", " ++
    fieldRepr "name" (c.name.map pyReprOptStr) ++ ")"

/-- Python `repr` of the value of a loaded `destination` relationship. -/
def reprDestinationValue : Option CountryInst → String
  | none => "None"
  | some c => reprCountryInst c

/-- `RepresentableMixin.__repr__` for a `TravelerWithDestination` instance:
it introspects the loaded/unloaded state of each attribute directly and
renders unloaded attributes as the not-loaded marker, never triggering a
fetch. -/
def reprTravelerWithDestinationInst (t : TravelerWithDestinationInst) : String :=
  "TravelerWithDestination(" ++
    fieldRepr "id" (t.id.map toString) ++ ", " ++
    fieldRepr "created_at" (t.created_at.map (fun v => v)) ++ ", " ++
    fieldRepr "name" (t.name.map pyReprOptStr) ++ ", " ++
    fieldRepr "age" (t.age.map pyReprOptNat) ++ ", " ++
    fieldRepr "destination_id" (t.destination_id.map pyReprOptNat) ++ ", " ++
    fieldRepr "destination" (t.destination.map reprDestinationValue) ++ ")"

/-- The constructor arguments all three relationship scenarios pass to
`create_orm_instance_async`. -/
def travelerWithDestinationKwargsDemo : TravelerWithDestinationKwargs :=
  { name := some "Sebastiaan", age := some 35, destination := some { name := some "Norway" } }

/-- `traveler.destination.name`: access the relationship attribute (which
may raise `MissingGreenlet` when unloaded), then — when its value is an
actual `Country` — access that country's `name`; when the relationship value
is `None`, Python raises `AttributeError`. -/
def getDestinationName (traveler : TravelerWithDestinationInst) :
    Except PyExc (Option String) :=
  match accessAttr traveler.destination with
  | .error e => .error e
  | .ok none => .error .attributeError
  | .ok (some c) => accessAttr c.name

/-- `async._get_destination`: execute the selector in a new session, then try
to read `traveler.destination.name` inside a handler that catches only
`MissingGreenlet` and converts it into an absent result. -/
def _get_destination (traveler_select : SelectStmt) (db : DB) :
    Except PyExc (Option String) × List Phase :=
  match scalarTravelerWithDestination traveler_select db with
  | none =>
      (.error .attributeError, [.selectNewSession, .readAttempt])
  | some traveler =>
      match getDestinationName traveler with
      | .ok v =>
          (.ok (some ("The traveler is traveling to " ++ pyReprOptStr v)),
            [.selectNewSession, .readAttempt, .success])
      | .error .missingGreenlet =>
          (.ok none, [.selectNewSession, .readAttempt, .caughtFailure .missingGreenlet])
      | .error e =>
          (.error e, [.selectNewSession, .readAttempt])

/-- `async.unloaded_relationship`: insert a traveler with a destination,
refetch it in a new session without any loader option, and return its
textual representation. -/
def unloaded_relationship (db : DB) : Except PyExc String × DB × List Phase :=
  let seldb := create_orm_instance_async
    (.forTravelerWithDestination travelerWithDestinationKwargsDemo) db
  match scalarTravelerWithDestination seldb.1 seldb.2.1 with
  | some traveler =>
      (.ok (reprTravelerWithDestinationInst traveler), seldb.2.1,
        seldb.2.2 ++ [.selectNewSession, .readAttempt, .success])
  | none =>
      (.ok "None", seldb.2.1, seldb.2.2 ++ [.selectNewSession, .readAttempt, .success])

/-- `async.access_unloaded_relationship`: insert a traveler with a
destination, then try to read the relationship through the unmodified
selector. -/
def access_unloaded_relationship (db : DB) :
    Except PyExc (Option String) × DB × List Phase :=
  let seldb := create_orm_instance_async
    (.forTravelerWithDestination travelerWithDestinationKwargsDemo) db
  let res := _get_destination seldb.1 seldb.2.1
  (res.1, seldb.2.1, seldb.2.2 ++ res.2)

/-- `async.access_loaded_relationship`: like the unloaded variant, but the
selector is augmented with a `joinedload` option for the `destination`
relationship before execution. -/
def access_loaded_relationship (db : DB) :
    Except PyExc (Option String) × DB × List Phase :=
  let seldb := create_orm_instance_async
    (.forTravelerWithDestination travelerWithDestinationKwargsDemo) db
  let joinedload_select := seldb.1.optionsJoinedloadDestination
  let res := _get_destination joinedload_select seldb.2.1
  (res.1, seldb.2.1, seldb.2.2 ++ res.2)

/-- `async.main`, projected to the scenario results: recreate the schema,
then run the six scenarios in the fixed order of the `targets` dictionary,
threading the database state; an uncaught exception in any scenario would
propagate. -/
def main_results (db0 : DB) : Except PyExc (List (Option String)) :=
  let db := flush_database_async db0
  let r1 := simple_statement "Hello, world!"
  match lazy_loading db with
  | (.error e, _, _) => .error e
  | (.ok r2, db, _) =>
    match eager_loading db with
    | (.error e, _, _) => .error e
    | (.ok r3, db, _) =>
      match unloaded_relationship db with
      | (.error e, _, _) => .error e
      | (.ok r4, db, _) =>
        match access_unloaded_relationship db with
        | (.error e, _, _) => .error e
        | (.ok r5, db, _) =>
          match access_loaded_relationship db with
          | (.error e, _, _) => .error e
          | (.ok r6, _, _) =>
            .ok [some r1, r2, r3, some r4, r5, r6]

/-- A label whose bracketed rendering is longer than the default divider
width. -/
def longLabel : String := String.mk (List.replicate 77 'a')

/-- The instance `unloaded_relationship` refetches: every column attribute
loaded from the stored row, the relationship attribute unloaded. -/
def twdInstFetched (db : DB) : TravelerWithDestinationInst :=
  { id := .loaded db.twdNextId
    created_at := .loaded db.now
    name := .loaded (some "Sebastiaan")
    age := .loaded (some 35)
    destination_id := .loaded (some db.countryNextId)
    destination := .unloaded }

/-- The length of a string built from a character list is the list's length. -/
theorem length_mk_list (l : List Char) : (String.mk l).length = l.length := rfl

/-- `centerPad` yields a string of the requested width, or of the input's
length when the input is already at least that wide. -/
theorem centerPad_length (s : String) (width : Nat) (fill : Char) :
    (centerPad s width fill).length = max width s.length := by
  simp only [centerPad, String.length_append, length_mk_list, List.length_replicate]
  omega

/-- The length of a formatted divider. -/
theorem format_divider_length (label : String) (width : Nat) :
    (format_divider label width).length = max width (renderedLabel label).length :=
  centerPad_length (renderedLabel label) width '='

/-- Looking up a fresh identity key in a table after appending the row that
carries it finds exactly that row. -/
theorem find_append_fresh {α : Type} (f : α → Nat) (l : List α) (x : α) (n : Nat)
    (hall : ∀ r ∈ l, f r < n) (hx : f x = n) :
    (l ++ [x]).find? (fun r => f r == n) = some x := by
  induction l with
  | nil =>
    have hx' : (f x == n) = true := beq_iff_eq.mpr hx
    rw [List.nil_append, List.find?_cons, hx']
  | cons a t ih =>
    have h1 : f a < n := hall a (List.mem_cons_self a t)
    have ha : (f a == n) = false := beq_eq_false_iff_ne.mpr (Nat.ne_of_lt h1)
    rw [List.cons_append, List.find?_cons, ha]
    exact ih (fun r hr => hall r (List.mem_cons_of_mem a hr))

/-- Filtering a table by a fresh identity key after appending the row that
carries it keeps exactly that row. -/
theorem filter_append_fresh {α : Type} (f : α → Nat) (l : List α) (x : α) (n : Nat)
    (hall : ∀ r ∈ l, f r < n) (hx : f x = n) :
    (l ++ [x]).filter (fun r => f r == n) = [x] := by
  rw [List.filter_append]
  have h1 : l.filter (fun r => f r == n) = [] := by
    rw [List.filter_eq_nil_iff]
    intro a ha
    have h2 : f a < n := hall a ha
    simp only [beq_iff_eq]
    omega
  rw [h1, List.nil_append]
  rw [List.filter_cons_of_pos (by simp [hx]), List.filter_nil]

/-- `find_append_fresh` specialised to `traveler_with_destination` rows. -/
theorem find_twd_fresh (l : List TravelerWithDestinationRow)
    (x : TravelerWithDestinationRow) (n : Nat)
    (hall : ∀ r ∈ l, r.id < n) (hx : x.id = n) :
    (l ++ [x]).find? (fun r => r.id == n) = some x :=
  find_append_fresh (fun r => r.id) l x n hall hx

/-- `find_append_fresh` specialised to `country` rows. -/
theorem find_country_fresh (l : List CountryRow) (x : CountryRow) (n : Nat)
    (hall : ∀ r ∈ l, r.id < n) (hx : x.id = n) :
    (l ++ [x]).find? (fun r => r.id == n) = some x :=
  find_append_fresh (fun r => r.id) l x n hall hx

/-- `find_append_fresh` specialised to plain traveler rows. -/
theorem find_traveler_fresh (l : List TravelerRow) (x : TravelerRow) (n : Nat)
    (hall : ∀ r ∈ l, r.id < n) (hx : x.id = n) :
    (l ++ [x]).find? (fun r => r.id == n) = some x :=
  find_append_fresh (fun r => r.id) l x n hall hx

/-- `filter_append_fresh` specialised to `traveler_with_destination` rows. -/
theorem filter_twd_fresh (l : List TravelerWithDestinationRow)
    (x : TravelerWithDestinationRow) (n : Nat)
    (hall : ∀ r ∈ l, r.id < n) (hx : x.id = n) :
    (l ++ [x]).filter (fun r => r.id == n) = [x] :=
  filter_append_fresh (fun r => r.id) l x n hall hx

/-- `filter_append_fresh` specialised to `country` rows. -/
theorem filter_country_fresh (l : List CountryRow) (x : CountryRow) (n : Nat)
    (hall : ∀ r ∈ l, r.id < n) (hx : x.id = n) :
    (l ++ [x]).filter (fun r => r.id == n) = [x] :=
  filter_append_fresh (fun r => r.id) l x n hall hx

/-- `filter_append_fresh` specialised to plain traveler rows. -/
theorem filter_traveler_fresh (l : List TravelerRow) (x : TravelerRow) (n : Nat)
    (hall : ∀ r ∈ l, r.id < n) (hx : x.id = n) :
    (l ++ [x]).filter (fun r => r.id == n) = [x] :=
  filter_append_fresh (fun r => r.id) l x n hall hx

/-- Unpack the well-formedness invariant for the `lazy_traveler` table. -/
theorem wellFormed_lazy {db : DB} (h : db.wellFormed = true) :
    ∀ r ∈ db.lazy_traveler, r.id < db.lazyNextId := by
  simp only [DB.wellFormed, Bool.and_eq_true, List.all_eq_true, decide_eq_true_eq] at h
  exact h.1.1.1

/-- Unpack the well-formedness invariant for the `eager_traveler` table. -/
theorem wellFormed_eager {db : DB} (h : db.wellFormed = true) :
    ∀ r ∈ db.eager_traveler, r.id < db.eagerNextId := by
  simp only [DB.wellFormed, Bool.and_eq_true, List.all_eq_true, decide_eq_true_eq] at h
  exact h.1.1.2

/-- Unpack the well-formedness invariant for the
`traveler_with_destination` table. -/
theorem wellFormed_twd {db : DB} (h : db.wellFormed = true) :
    ∀ r ∈ db.traveler_with_destination, r.id < db.twdNextId := by
  simp only [DB.wellFormed, Bool.and_eq_true, List.all_eq_true, decide_eq_true_eq] at h
  exact h.1.2

/-- Unpack the well-formedness invariant for the `country` table. -/
theorem wellFormed_country {db : DB} (h : db.wellFormed = true) :
    ∀ r ∈ db.country, r.id < db.countryNextId := by
  simp only [DB.wellFormed, Bool.and_eq_true, List.all_eq_true, decide_eq_true_eq] at h
  exact h.2

/-- On the lazy-default model the post-commit read of `created_at` raises
`MissingGreenlet`, is caught, and the scenario yields an absent result. -/
theorem lazy_loading_run (db : DB) :
    lazy_loading db =
      (.ok none, (insertLazyTraveler { name := some "Sebastiaan", age := some 35 } db).2,
        sameSessionReadShape (some .missingGreenlet)) := rfl

/-- On the eager-default model the post-commit read of `created_at` succeeds
with the server clock value fetched during the flush. -/
theorem eager_loading_run (db : DB) :
    eager_loading db =
      (.ok (some ("Traveler Sebastiaan created at: " ++ db.now)),
        (insertEagerTraveler { name := some "Sebastiaan", age := some 35 } db).2,
        sameSessionReadShape none) := rfl

/-- The representation of an instance whose relationship attribute is
unloaded ends with the not-loaded marker for that attribute. -/
theorem reprTWD_unloaded_marker (t : TravelerWithDestinationInst)
    (h : t.destination = Loaded.unloaded) :
    ∃ a : String,
      reprTravelerWithDestinationInst t = a ++ "destination=<NOT_LOADED>)" := by
  refine ⟨"TravelerWithDestination(" ++
    fieldRepr "id" (t.id.map toString) ++ ", " ++
    fieldRepr "created_at" (t.created_at.map (fun v => v)) ++ ", " ++
    fieldRepr "name" (t.name.map pyReprOptStr) ++ ", " ++
    fieldRepr "age" (t.age.map pyReprOptNat) ++ ", " ++
    fieldRepr "destination_id" (t.destination_id.map pyReprOptNat) ++ ", ", ?_⟩
  simp only [reprTravelerWithDestinationInst, h, Loaded.map, fieldRepr]
  rw [String.append_assoc]
  rfl

/-- Running `unloaded_relationship` on a well-formed database: the refetch
finds the inserted row and the scenario returns the representation of the
instance with its relationship unloaded, following the spec's shape. -/
theorem unloaded_relationship_run (db : DB) (h : db.wellFormed = true) :
    (unloaded_relationship db).1 =
      .ok (reprTravelerWithDestinationInst (twdInstFetched db)) ∧
    (unloaded_relationship db).2.2 = claimedScenarioShape none := by
  have hfind := find_twd_fresh db.traveler_with_destination
    { id := db.twdNextId, created_at := db.now, name := some "Sebastiaan",
      age := some 35, destination_id := some db.countryNextId }
    db.twdNextId (wellFormed_twd h) rfl
  constructor <;>
    simp only [unloaded_relationship, create_orm_instance_async,
      travelerWithDestinationKwargsDemo, insertTravelerWithDestination, insertCountry,
      scalarTravelerWithDestination, hfind, Option.map_some', twdInstFetched,
      claimedScenarioShape, terminalPhase, List.append_eq, List.cons_append,
      List.nil_append, Bool.false_eq_true, if_false]

/-- Running `access_unloaded_relationship` on a well-formed database: the
relationship read raises `MissingGreenlet`, which is caught, yielding an
absent result; the trace follows the spec's shape with a caught failure. -/
theorem access_unloaded_relationship_run (db : DB) (h : db.wellFormed = true) :
    (access_unloaded_relationship db).1 = .ok none ∧
    (access_unloaded_relationship db).2.2 =
      claimedScenarioShape (some .missingGreenlet) := by
  have hfind := find_twd_fresh db.traveler_with_destination
    { id := db.twdNextId, created_at := db.now, name := some "Sebastiaan",
      age := some 35, destination_id := some db.countryNextId }
    db.twdNextId (wellFormed_twd h) rfl
  constructor <;>
    simp only [access_unloaded_relationship, create_orm_instance_async,
      travelerWithDestinationKwargsDemo, insertTravelerWithDestination, insertCountry,
      _get_destination, scalarTravelerWithDestination, getDestinationName, accessAttr,
      hfind, Option.map_some', claimedScenarioShape, terminalPhase, List.append_eq,
      List.cons_append, List.nil_append, Bool.false_eq_true, if_false]

/-- Running `access_loaded_relationship` on a well-formed database: the
joined eager load populates the relationship, the read succeeds, and the
result names the nested country. -/
theorem access_loaded_relationship_run (db : DB) (h : db.wellFormed = true) :
    (access_loaded_relationship db).1 =
      .ok (some ("The traveler is traveling to " ++ pyReprStr "Norway")) ∧
    (access_loaded_relationship db).2.2 = claimedScenarioShape none := by
  have hfind := find_twd_fresh db.traveler_with_destination
    { id := db.twdNextId, created_at := db.now, name := some "Sebastiaan",
      age := some 35, destination_id := some db.countryNextId }
    db.twdNextId (wellFormed_twd h) rfl
  have hcountry := find_country_fresh db.country
    { id := db.countryNextId, name := some "Norway" }
    db.countryNextId (wellFormed_country h) rfl
  constructor <;>
    simp only [access_loaded_relationship, create_orm_instance_async,
      travelerWithDestinationKwargsDemo, insertTravelerWithDestination, insertCountry,
      SelectStmt.optionsJoinedloadDestination, _get_destination,
      scalarTravelerWithDestination, getDestinationName, accessAttr, countryInstOfRow,
      pyReprOptStr, hfind, hcountry, Option.map_some', Option.some_bind,
      claimedScenarioShape, terminalPhase, List.append_eq, List.cons_append,
      List.nil_append, if_true]

/-- Claim C1: running the six scenarios in the fixed order (simple_statement,
lazy_loading, eager_loading, unloaded_relationship,
access_unloaded_relationship, access_loaded_relationship) against a freshly
recreated schema yields exactly 4 successful (non-absent) results and
exactly 2 caught-failure (absent) results, the failures being lazy_loading
and access_unloaded_relationship (positions 2 and 5). -/
theorem claim_C1 (db0 : DB) :
    ∃ rs : List (Option String),
      main_results db0 = .ok rs ∧
      rs.map Option.isSome = [true, false, true, true, false, true] ∧
      rs.countP (fun r => r.isSome) = 4 ∧
      rs.countP (fun r => r.isNone) = 2 := by
  refine ⟨_, rfl, rfl, rfl, rfl⟩

/-- Claim C2: in every run, lazy_loading's read of the server-computed
created_at after its insert transaction has closed, and
access_unloaded_relationship's read of traveler.destination.name without an
eager-load option, both hit MissingGreenlet at the read attempt; the
exception is caught there and each scenario returns an absent result rather
than propagating. -/
theorem claim_C2 (db : DB) (h : db.wellFormed = true) :
    (lazy_loading db).1 = .ok none ∧
    (lazy_loading db).2.2 = sameSessionReadShape (some .missingGreenlet) ∧
    (access_unloaded_relationship db).1 = .ok none ∧
    (access_unloaded_relationship db).2.2 =
      claimedScenarioShape (some .missingGreenlet) :=
  ⟨rfl, rfl, (access_unloaded_relationship_run db h).1,
    (access_unloaded_relationship_run db h).2⟩

/-- Witness for claim C2 at a concrete fresh database. -/
theorem claim_C2_witness :
    (initDB "T2").wellFormed = true ∧
    ((lazy_loading (initDB "T2")).1 = .ok none ∧
     (lazy_loading (initDB "T2")).2.2 = sameSessionReadShape (some .missingGreenlet) ∧
     (access_unloaded_relationship (initDB "T2")).1 = .ok none ∧
     (access_unloaded_relationship (initDB "T2")).2.2 =
       claimedScenarioShape (some .missingGreenlet)) :=
  ⟨by decide, claim_C2 (initDB "T2") (by decide)⟩

/-- Claim C3: every run of eager_loading on the eager-default model succeeds
(no exception), returning a non-empty string containing the server
timestamp. -/
theorem claim_C3 (db : DB) :
    (eager_loading db).1 =
      .ok (some ("Traveler Sebastiaan created at: " ++ db.now)) ∧
    0 < ("Traveler Sebastiaan created at: " ++ db.now).length ∧
    (eager_loading db).2.2 = sameSessionReadShape none := by
  refine ⟨rfl, ?_, rfl⟩
  rw [String.length_append]
  have h32 : ("Traveler Sebastiaan created at: ").length = 32 := rfl
  omega

/-- Claim C4: every run of unloaded_relationship returns (without raising)
the textual representation of the refetched instance, whose relationship
attribute is unloaded, and that representation marks the relationship field
with the not-loaded marker. -/
theorem claim_C4 (db : DB) (h : db.wellFormed = true) :
    (∃ t : TravelerWithDestinationInst, ∃ a : String,
      (unloaded_relationship db).1 = .ok (reprTravelerWithDestinationInst t) ∧
      t.destination = Loaded.unloaded ∧
      reprTravelerWithDestinationInst t = a ++ "destination=<NOT_LOADED>)") ∧
    (unloaded_relationship db).2.2 = claimedScenarioShape none := by
  obtain ⟨a, ha⟩ := reprTWD_unloaded_marker (twdInstFetched db) rfl
  exact ⟨⟨twdInstFetched db, a, (unloaded_relationship_run db h).1, rfl, ha⟩,
    (unloaded_relationship_run db h).2⟩

/-- Witness for claim C4 at a concrete fresh database. -/
theorem claim_C4_witness :
    (initDB "T4").wellFormed = true ∧
    ((∃ t : TravelerWithDestinationInst, ∃ a : String,
      (unloaded_relationship (initDB "T4")).1 =
        .ok (reprTravelerWithDestinationInst t) ∧
      t.destination = Loaded.unloaded ∧
      reprTravelerWithDestinationInst t = a ++ "destination=<NOT_LOADED>)") ∧
    (unloaded_relationship (initDB "T4")).2.2 = claimedScenarioShape none) :=
  ⟨by decide, claim_C4 (initDB "T4") (by decide)⟩

/-- Claim C5: every run of access_loaded_relationship, whose selector is
augmented with a joined eager-load option for the destination relationship,
succeeds in reading traveler.destination.name and returns a string naming
the nested country Norway. -/
theorem claim_C5 (db : DB) (h : db.wellFormed = true) :
    (access_loaded_relationship db).1 =
      .ok (some ("The traveler is traveling to " ++ pyReprStr "Norway")) ∧
    (access_loaded_relationship db).2.2 = claimedScenarioShape none :=
  access_loaded_relationship_run db h

/-- Witness for claim C5 at a concrete fresh database. -/
theorem claim_C5_witness :
    (initDB "T5").wellFormed = true ∧
    ((access_loaded_relationship (initDB "T5")).1 =
      .ok (some ("The traveler is traveling to " ++ pyReprStr "Norway")) ∧
    (access_loaded_relationship (initDB "T5")).2.2 = claimedScenarioShape none) :=
  ⟨by decide, claim_C5 (initDB "T5") (by decide)⟩

/-- Claim C6: for every model and constructor arguments,
create_orm_instance_async inserts the record inside a committed transaction
scope, closes the session, and returns a plain selector (no loader options)
on the model that filters on the identity key the database assigned, and
executing that selector against the post-insert database matches exactly the
inserted record. -/
theorem claim_C6 (creation_kwargs : CreationKwargs) (db : DB)
    (h : db.wellFormed = true) :
    (create_orm_instance_async creation_kwargs db).2.2 =
      [Phase.create, Phase.insertCommittedClosed] ∧
    (create_orm_instance_async creation_kwargs db).1.model = creation_kwargs.model ∧
    (create_orm_instance_async creation_kwargs db).1.joinedloadDestination = false ∧
    (create_orm_instance_async creation_kwargs db).1.whereId =
      assignedId creation_kwargs db ∧
    matchingRows creation_kwargs.model (assignedId creation_kwargs db)
      (create_orm_instance_async creation_kwargs db).2.1 =
      [insertedRow creation_kwargs db] ∧
    fetchRow creation_kwargs.model (assignedId creation_kwargs db)
      (create_orm_instance_async creation_kwargs db).2.1 =
      some (insertedRow creation_kwargs db) := by
  rcases creation_kwargs with kw | kw | ⟨nm, ag, dest⟩ | kw
  · have hfi := find_traveler_fresh db.lazy_traveler
      { id := db.lazyNextId, created_at := db.now, name := kw.name, age := kw.age }
      db.lazyNextId (wellFormed_lazy h) rfl
    have hfl := filter_traveler_fresh db.lazy_traveler
      { id := db.lazyNextId, created_at := db.now, name := kw.name, age := kw.age }
      db.lazyNextId (wellFormed_lazy h) rfl
    refine ⟨rfl, rfl, rfl, rfl, ?_, ?_⟩ <;>
      simp only [create_orm_instance_async, insertLazyTraveler, matchingRows, fetchRow,
        assignedId, insertedRow, CreationKwargs.model, hfi, hfl,
        List.map_cons, List.map_nil, Option.map_some']
  · have hfi := find_traveler_fresh db.eager_traveler
      { id := db.eagerNextId, created_at := db.now, name := kw.name, age := kw.age }
      db.eagerNextId (wellFormed_eager h) rfl
    have hfl := filter_traveler_fresh db.eager_traveler
      { id := db.eagerNextId, created_at := db.now, name := kw.name, age := kw.age }
      db.eagerNextId (wellFormed_eager h) rfl
    refine ⟨rfl, rfl, rfl, rfl, ?_, ?_⟩ <;>
      simp only [create_orm_instance_async, insertEagerTraveler, matchingRows, fetchRow,
        assignedId, insertedRow, CreationKwargs.model, hfi, hfl,
        List.map_cons, List.map_nil, Option.map_some']
  · cases dest with
    | none =>
      have hfi := find_twd_fresh db.traveler_with_destination
        { id := db.twdNextId, created_at := db.now, name := nm, age := ag,
          destination_id := none }
        db.twdNextId (wellFormed_twd h) rfl
      have hfl := filter_twd_fresh db.traveler_with_destination
        { id := db.twdNextId, created_at := db.now, name := nm, age := ag,
          destination_id := none }
        db.twdNextId (wellFormed_twd h) rfl
      refine ⟨rfl, rfl, rfl, rfl, ?_, ?_⟩ <;>
        simp only [create_orm_instance_async, insertTravelerWithDestination, matchingRows,
          fetchRow, assignedId, insertedRow, CreationKwargs.model, hfi, hfl,
          List.map_cons, List.map_nil, Option.map_none', Option.map_some']
    | some ckw =>
      have hfi := find_twd_fresh db.traveler_with_destination
        { id := db.twdNextId, created_at := db.now, name := nm, age := ag,
          destination_id := some db.countryNextId }
        db.twdNextId (wellFormed_twd h) rfl
      have hfl := filter_twd_fresh db.traveler_with_destination
        { id := db.twdNextId, created_at := db.now, name := nm, age := ag,
          destination_id := some db.countryNextId }
        db.twdNextId (wellFormed_twd h) rfl
      refine ⟨rfl, rfl, rfl, rfl, ?_, ?_⟩ <;>
        simp only [create_orm_instance_async, insertTravelerWithDestination, insertCountry,
          matchingRows, fetchRow, assignedId, insertedRow, CreationKwargs.model, hfi, hfl,
          List.map_cons, List.map_nil, Option.map_none', Option.map_some']
  · have hfi := find_country_fresh db.country
      { id := db.countryNextId, name := kw.name }
      db.countryNextId (wellFormed_country h) rfl
    have hfl := filter_country_fresh db.country
      { id := db.countryNextId, name := kw.name }
      db.countryNextId (wellFormed_country h) rfl
    refine ⟨rfl, rfl, rfl, rfl, ?_, ?_⟩ <;>
      simp only [create_orm_instance_async, insertCountry, matchingRows, fetchRow,
        assignedId, insertedRow, CreationKwargs.model, hfi, hfl,
        List.map_cons, List.map_nil, Option.map_some']

/-- Witness for claim C6 at the demo's model, arguments and a concrete
fresh database. -/
theorem claim_C6_witness :
    (initDB "T6").wellFormed = true ∧
    ((create_orm_instance_async
        (.forTravelerWithDestination travelerWithDestinationKwargsDemo)
        (initDB "T6")).2.2 = [Phase.create, Phase.insertCommittedClosed] ∧
    (create_orm_instance_async
        (.forTravelerWithDestination travelerWithDestinationKwargsDemo)
        (initDB "T6")).1.model =
      (CreationKwargs.forTravelerWithDestination travelerWithDestinationKwargsDemo).model ∧
    (create_orm_instance_async
        (.forTravelerWithDestination travelerWithDestinationKwargsDemo)
        (initDB "T6")).1.joinedloadDestination = false ∧
    (create_orm_instance_async
        (.forTravelerWithDestination travelerWithDestinationKwargsDemo)
        (initDB "T6")).1.whereId =
      assignedId (.forTravelerWithDestination travelerWithDestinationKwargsDemo)
        (initDB "T6") ∧
    matchingRows
        (CreationKwargs.forTravelerWithDestination travelerWithDestinationKwargsDemo).model
        (assignedId (.forTravelerWithDestination travelerWithDestinationKwargsDemo)
          (initDB "T6"))
        (create_orm_instance_async
          (.forTravelerWithDestination travelerWithDestinationKwargsDemo)
          (initDB "T6")).2.1 =
      [insertedRow (.forTravelerWithDestination travelerWithDestinationKwargsDemo)
        (initDB "T6")] ∧
    fetchRow
        (CreationKwargs.forTravelerWithDestination travelerWithDestinationKwargsDemo).model
        (assignedId (.forTravelerWithDestination travelerWithDestinationKwargsDemo)
          (initDB "T6"))
        (create_orm_instance_async
          (.forTravelerWithDestination travelerWithDestinationKwargsDemo)
          (initDB "T6")).2.1 =
      some (insertedRow (.forTravelerWithDestination travelerWithDestinationKwargsDemo)
        (initDB "T6"))) :=
  ⟨by decide,
    claim_C6 (.forTravelerWithDestination travelerWithDestinationKwargsDemo)
      (initDB "T6") (by decide)⟩

/-- Counterexample to claim C7 as stated: the lazy_loading scenario performs
its read attempt inside the still-open insert session, with no SELECT in a
new session, so its trace does not match the claimed CREATE, INSERT
(committed, session closed), SELECT (new session), READ-ATTEMPT, terminal
shape for any terminal outcome. -/
theorem claim_C7_counterexample :
    (lazy_loading (initDB "T7c")).2.2 = sameSessionReadShape (some .missingGreenlet) ∧
    (lazy_loading (initDB "T7c")).2.2 ≠ claimedScenarioShape none ∧
    (lazy_loading (initDB "T7c")).2.2 ≠ claimedScenarioShape (some .missingGreenlet) ∧
    (lazy_loading (initDB "T7c")).2.2 ≠ claimedScenarioShape (some .attributeError) := by
  refine ⟨rfl, ?_, ?_, ?_⟩ <;> decide

/-- Claim C7 (amended): the three relationship scenarios follow the claimed
shape CREATE, INSERT (committed, session closed), SELECT (new session),
READ-ATTEMPT, terminal; lazy_loading and eager_loading instead perform the
read attempt inside the still-open insert session right after the insert
transaction commits, with no refetch in a new session; simple_statement
follows neither (it touches no record). -/
theorem claim_C7 (db : DB) (h : db.wellFormed = true) :
    (unloaded_relationship db).2.2 = claimedScenarioShape none ∧
    (access_unloaded_relationship db).2.2 =
      claimedScenarioShape (some .missingGreenlet) ∧
    (access_loaded_relationship db).2.2 = claimedScenarioShape none ∧
    (lazy_loading db).2.2 = sameSessionReadShape (some .missingGreenlet) ∧
    (eager_loading db).2.2 = sameSessionReadShape none :=
  ⟨(unloaded_relationship_run db h).2, (access_unloaded_relationship_run db h).2,
    (access_loaded_relationship_run db h).2, rfl, rfl⟩

/-- Witness for claim C7 at a concrete fresh database. -/
theorem claim_C7_witness :
    (initDB "T7").wellFormed = true ∧
    ((unloaded_relationship (initDB "T7")).2.2 = claimedScenarioShape none ∧
    (access_unloaded_relationship (initDB "T7")).2.2 =
      claimedScenarioShape (some .missingGreenlet) ∧
    (access_loaded_relationship (initDB "T7")).2.2 = claimedScenarioShape none ∧
    (lazy_loading (initDB "T7")).2.2 = sameSessionReadShape (some .missingGreenlet) ∧
    (eager_loading (initDB "T7")).2.2 = sameSessionReadShape none) :=
  ⟨by decide, claim_C7 (initDB "T7") (by decide)⟩

/-- Counterexample to claim C8 as stated: with the default width 80, a label
whose bracketed rendering is 81 characters long produces a divider of length
81, not of the requested width. -/
theorem claim_C8_counterexample :
    (format_divider longLabel DIVIDER_WIDTH).length ≠ DIVIDER_WIDTH := by
  decide

/-- Claim C8 (amended): format_divider returns the rendered label (bracketed
when non-empty) centered between runs of the fill character, of length
exactly the requested width whenever the rendered label fits in that width;
when the rendered label is longer than the width the result has the rendered
label's length instead (in general, the maximum of the two). -/
theorem claim_C8 (label : String) (width : Nat) :
    (format_divider label width).length = max width (renderedLabel label).length ∧
    ((renderedLabel label).length ≤ width →
      (format_divider label width).length = width) ∧
    format_divider label width =
      String.mk (List.replicate ((width - (renderedLabel label).length) / 2) '=') ++
        renderedLabel label ++
        String.mk (List.replicate ((width - (renderedLabel label).length) -
          (width - (renderedLabel label).length) / 2) '=') := by
  refine ⟨format_divider_length label width, ?_, rfl⟩
  intro hle
  rw [format_divider_length label width]
  omega

/-- Witness for claim C8 at a concrete label and width. -/
theorem claim_C8_witness :
    (renderedLabel "core").length ≤ 10 ∧ (format_divider "core" 10).length = 10 :=
  ⟨by decide, (claim_C8 "core" 10).2.1 (by decide)⟩

/-- Claim C9: the scenario executor prints a labeled start marker, a result
marker, the result itself or the placeholder when the result is absent, and
an end marker, and passes the awaited value through unchanged. -/
theorem claim_C9 (result : Option String) (label : String) :
    (execute_verbosely_async result label).1 = result ∧
    (execute_verbosely_async result label).2 =
      [format_divider ("Start Execution of " ++ pyReprStr label) DIVIDER_WIDTH,
       format_divider "Result" DIVIDER_WIDTH,
       result.getD "(no result)",
       format_divider "End" DIVIDER_WIDTH] := by
  refine ⟨rfl, ?_⟩
  cases result <;> rfl

/-- Claim C10: simple_statement echoes its message parameter as the scalar
result of the parameterized SELECT; in particular it maps the message
Hello, world! to exactly that string, and it has no failure path (it is a
total function into String). -/
theorem claim_C10 :
    simple_statement "Hello, world!" = "Hello, world!" ∧
    ∀ message : String, simple_statement message = message :=
  ⟨rfl, fun _ => rfl⟩

end TalkAsyncSqlalchemy
